import Mathlib

/-!
Shallow embedding of the zkShuffle on-chain shuffle/deal state machine
(`packages/contracts/contracts/shuffle/shuffle.sol`) and its Baby Jubjub
curve library (`CurveBabyJubJub`), together with theorems checking the
natural-language specification against this embedding.

Machine integers (`uint256`) are modelled as `Nat`; every arithmetic
operation that the contract performs modulo `Q` is transcribed with an
explicit `% Q`.  External calls that revert on failure (the Groth16
verifier contracts) are modelled as boolean-valued parameters; a rejected
proof makes the contract call revert, which is modelled by the `Except`
error result, and the EVM rollback of a reverted call is modelled by the
`apply*` wrappers that return the pre-call state on error.
-/

namespace ZkShuffle

set_option maxRecDepth 100000

/-- Baby Jubjub base-field prime `Q` from `CurveBabyJubJub`. -/
def Q : Nat :=
  21888242871839275222246405745257275088548364400416034343698204186575808495617

/-- Curve coefficient `A = 168700` from `CurveBabyJubJub`. -/
def Acoef : Nat := 168700

/-- Curve coefficient `D = 168696` from `CurveBabyJubJub`. -/
def Dcoef : Nat := 168696

/-- Solidity `mulmod(a, b, m)`. -/
def mulmod (a b m : Nat) : Nat := a * b % m

/-- Solidity `addmod(a, b, m)`. -/
def addmod (a b m : Nat) : Nat := (a + b) % m

/-- `CurveBabyJubJub.submod`: modular subtraction without underflow,
transcribed from the source (`aNN += _mod` when `_a <= _b`, then
`addmod(aNN - _b, 0, _mod)`). -/
def submod (a b m : Nat) : Nat :=
  (if a ≤ b then a + m - b else a - b) % m

/-- Fuel-driven binary modular exponentiation.  One step of
square-and-multiply per fuel unit; 256 units cover every `uint256`
exponent. -/
def powModAux : Nat → Nat → Nat → Nat → Nat → Nat
  | 0, _, _, _, acc => acc
  | fuel + 1, b, e, m, acc =>
    if e = 0 then acc
    else powModAux fuel (b * b % m) (e / 2) m
      (if e % 2 = 1 then acc * b % m else acc)

/-- `CurveBabyJubJub.expmod`: the `bigModExp` precompile at address 0x05,
which returns `b ^ e % m`.  Modelled by binary exponentiation so that it
is executable on 254-bit exponents. -/
def expmod (b e m : Nat) : Nat := powModAux 256 (b % m) e m (1 % m)

/-- `CurveBabyJubJub.inverse`: Fermat inversion `a ^ (Q - 2) mod Q`. -/
def inverse (a : Nat) : Nat := expmod a (Q - 2) Q

/-- `CurveBabyJubJub.pointAdd`, transcribed branch by branch.  Note the
second branch of the source tests `_x2 == 0 && _y1 == 0` (with `_y1`,
not `_y2`). -/
def pointAdd (x1 y1 x2 y2 : Nat) : Nat × Nat :=
  if x1 = 0 ∧ y1 = 0 then (x2, y2)
  else if x2 = 0 ∧ y1 = 0 then (x1, y1)
  else
    let x1x2 := mulmod x1 x2 Q
    let y1y2 := mulmod y1 y2 Q
    let dx1x2y1y2 := mulmod Dcoef (mulmod x1x2 y1y2 Q) Q
    let x3Num := addmod (mulmod x1 y2 Q) (mulmod y1 x2 Q) Q
    let y3Num := submod y1y2 (mulmod Acoef x1x2 Q) Q
    (mulmod x3Num (inverse (addmod 1 dx1x2y1y2 Q)) Q,
     mulmod y3Num (inverse (submod 1 dx1x2y1y2 Q)) Q)

/-- Loop body of `CurveBabyJubJub.pointMul`: double-and-add from the
least significant bit of `remaining`.  One loop iteration per fuel unit;
256 units cover every `uint256` scalar. -/
def pointMulAux : Nat → Nat → Nat → Nat → Nat → Nat → Nat × Nat
  | 0, _, _, _, ax, ay => (ax, ay)
  | fuel + 1, px, py, remaining, ax, ay =>
    if remaining = 0 then (ax, ay)
    else
      let a' := if remaining % 2 = 1 then pointAdd ax ay px py else (ax, ay)
      let p' := pointAdd px py px py
      pointMulAux fuel p'.1 p'.2 (remaining / 2) a'.1 a'.2

/-- `CurveBabyJubJub.pointMul`: scalar multiplication by double-and-add,
starting from the accumulator `(0, 0)`. -/
def pointMul (x y d : Nat) : Nat × Nat := pointMulAux 256 x y d 0 0

/-- `CurveBabyJubJub.isOnCurve`: checks `A x^2 + y^2 = 1 + D x^2 y^2`
modulo `Q`. -/
def isOnCurve (x y : Nat) : Bool :=
  let xSq := mulmod x x Q
  let ySq := mulmod y y Q
  let lhs := addmod (mulmod Acoef xSq Q) ySq Q
  let rhs := addmod 1 (mulmod (mulmod Dcoef xSq Q) ySq Q) Q
  submod lhs rhs Q = 0

/-- Modelled from the spec: twisted-Edwards point negation `neg(P)`,
which is used by the specification law `point_add(P, neg(P)) = identity`
but is not part of the sources under `src/`; the negation of `(x, y)` on
a twisted Edwards curve is `(-x mod Q, y)`. -/
def negPt (p : Nat × Nat) : Nat × Nat := ((Q - p.1 % Q) % Q, p.2)

/-- Game states.  `shuffle.sol` uses `State.Registration`,
`State.ShufflingDeck` and `State.DealingCard` of the `State` enum of
`IShuffle.sol`, a file that is not under `src/`; the remaining
constructors are modelled from the spec state diagram, which names the
shuffle state `Shuffle` and the deal state `Deal`. -/
inductive GState where
  | Uncreated
  | Created
  | Registration
  | ShufflingDeck
  | DealingCard
  | Open
  | GameError
  | Complete
deriving DecidableEq

/-- Errors surfaced by reverts of the contract, named as in the error
design section of the spec.  `IndexOutOfBounds` models the implicit
Solidity panic on an out-of-range array read. -/
inductive Err where
  | InvalidState
  | NotYourTurn
  | InvalidPublicKey
  | IllFormedDelta
  | NotOnCurve
  | IllFormedSelector
  | DoubleDeal
  | ProofFailed
  | CardNotFullyDecrypted
  | IndexOutOfBounds
deriving DecidableEq

/-- The `Deck` struct: per-slot x-coordinates `X0`, `X1` and the two
selector bitvectors `Selector[0]`, `Selector[1]`.  Storage arrays are
modelled as total functions from the index. -/
structure Deck where
  X0 : Nat → Nat
  X1 : Nat → Nat
  Selector : Nat → Nat

/-- One entry of `CardDeal.cards`: the in-deal card `(X0, Y0, X1, Y1)`. -/
structure Card where
  X0 : Nat
  Y0 : Nat
  X1 : Nat
  Y1 : Nat

/-- The `CardDeal` struct: per-card in-deal points and the per-card
bitmap `record` of players that have already dealt. -/
structure CardDeal where
  cards : Nat → Card
  record : Nat → Nat

/-- The `PlayerInfo` struct: registered addresses, the flat list of
public-key coordinates (`x` and `y` pushed separately, as in the
source), and the aggregated public key. -/
structure PlayerInfo where
  playerAddr : List Nat
  playerPk : List Nat
  aggregatedPk : Nat × Nat

/-- The storage of the `Shuffle` contract: every game-indexed mapping of
the source, plus the game-independent `initialDeck`. -/
structure ContractState where
  numPlayers : Nat → Nat
  decks : Nat → Deck
  initialDeck : Deck
  cardDeals : Nat → CardDeal
  playerInfos : Nat → PlayerInfo
  playerIndexes : Nat → Nat
  states : Nat → GState

/-- Pointwise update of a mapping at one key. -/
def upd {α : Type} (f : Nat → α) (k : Nat) (v : α) : Nat → α :=
  fun k' => if k' = k then v else f k'

/-- `INVALID_CARD_INDEX`. -/
def INVALID_CARD_INDEX : Nat := 999999

/-- The literal 52-entry `deck.X1` table assigned by `initDeck`,
transcribed entry by entry from the source. -/
def x1Table : Nat → Nat
  | 0 => 5299619240641551281634865583518297030282874472190772894086521144482721001553
  | 1 => 10031262171927540148667355526369034398030886437092045105752248699557385197826
  | 2 => 2763488322167937039616325905516046217694264098671987087929565332380420898366
  | 3 => 12252886604826192316928789929706397349846234911198931249025449955069330867144
  | 4 => 11480966271046430430613841218147196773252373073876138147006741179837832100836
  | 5 => 10483991165196995731760716870725509190315033255344071753161464961897900552628
  | 6 => 20092560661213339045022877747484245238324772779820628739268223482659246842641
  | 7 => 7582035475627193640797276505418002166691739036475590846121162698650004832581
  | 8 => 4705897243203718691035604313913899717760209962238015362153877735592901317263
  | 9 => 153240920024090527149238595127650983736082984617707450012091413752625486998
  | 10 => 21605515851820432880964235241069234202284600780825340516808373216881770219365
  | 11 => 13745444942333935831105476262872495530232646590228527111681360848540626474828
  | 12 => 2645068156583085050795409844793952496341966587935372213947442411891928926825
  | 13 => 6271573312546148160329629673815240458676221818610765478794395550121752710497
  | 14 => 5958787406588418500595239545974275039455545059833263445973445578199987122248
  | 15 => 20535751008137662458650892643857854177364093782887716696778361156345824450120
  | 16 => 13563836234767289570509776815239138700227815546336980653685219619269419222465
  | 17 => 4275129684793209100908617629232873490659349646726316579174764020734442970715
  | 18 => 3580683066894261344342868744595701371983032382764484483883828834921866692509
  | 19 => 18524760469487540272086982072248352918977679699605098074565248706868593560314
  | 20 => 2154427024935329939176171989152776024124432978019445096214692532430076957041
  | 21 => 1816241298058861911502288220962217652587610581887494755882131860274208736174
  | 22 => 3639172054127297921474498814936207970655189294143443965871382146718894049550
  | 23 => 18153584759852955321993060909315686508515263790058719796143606868729795593935
  | 24 => 5176949692172562547530994773011440485202239217591064534480919561343940681001
  | 25 => 11782448596564923920273443067279224661023825032511758933679941945201390953176
  | 26 => 15115414180166661582657433168409397583403678199440414913931998371087153331677
  | 27 => 16103312053732777198770385592612569441925896554538398460782269366791789650450
  | 28 => 15634573854256261552526691928934487981718036067957117047207941471691510256035
  | 29 => 13522014300368527857124448028007017231620180728959917395934408529470498717410
  | 30 => 8849597151384761754662432349647792181832839105149516511288109154560963346222
  | 31 => 17637772869292411350162712206160621391799277598172371975548617963057997942415
  | 32 => 17865442088336706777255824955874511043418354156735081989302076911109600783679
  | 33 => 9625567289404330771610619170659567384620399410607101202415837683782273761636
  | 34 => 19373814649267709158886884269995697909895888146244662021464982318704042596931
  | 35 => 7390138716282455928406931122298680964008854655730225979945397780138931089133
  | 36 => 15569307001644077118414951158570484655582938985123060674676216828593082531204
  | 37 => 5574029269435346901610253460831153754705524733306961972891617297155450271275
  | 38 => 19413618616187267723274700502268217266196958882113475472385469940329254284367
  | 39 => 4150841881477820062321117353525461148695942145446006780376429869296310489891
  | 40 => 13006218950937475527552755960714370451146844872354184015492231133933291271706
  | 41 => 2756817265436308373152970980469407708639447434621224209076647801443201833641
  | 42 => 20753332016692298037070725519498706856018536650957009186217190802393636394798
  | 43 => 18677353525295848510782679969108302659301585542508993181681541803916576179951
  | 44 => 14183023947711168902945925525637889799656706942453336661550553836881551350544
  | 45 => 9918129980499720075312297335985446199040718987227835782934042132813716932162
  | 46 => 13387158171306569181335774436711419178064369889548869994718755907103728849628
  | 47 => 6746289764529063117757275978151137209280572017166985325039920625187571527186
  | 48 => 17386594504742987867709199123940407114622143705013582123660965311449576087929
  | 49 => 11393356614877405198783044711998043631351342484007264997044462092350229714918
  | 50 => 16257260290674454725761605597495173678803471245971702030005143987297548407836
  | 51 => 3673082978401597800140653084819666873666278094336864183112751111018951461681
  | _ => 0

/-- The deck value built by `initDeck`: `X0[i] = 0` for every slot (the
struct is zero-initial memory and the loop re-assigns 0), the literal
`X1` table, and the two selector constants. -/
def freshDeck : Deck where
  X0 := fun _ => 0
  X1 := x1Table
  Selector := fun j =>
    if j = 0 then 4503599627370495
    else if j = 1 then 3075935501959818
    else 0

/-- `initDeck(gameId)`: writes `freshDeck` into `initialDeck` when
`gameId = 0` (the reserved Not-In-Game id) and into `decks[gameId]`
otherwise. -/
def initDeck (st : ContractState) (gameId : Nat) : ContractState :=
  if gameId = 0 then { st with initialDeck := freshDeck }
  else { st with decks := upd st.decks gameId freshDeck }

/-- The aggregation loop of `register`: start from the first registered
public key and left-fold `pointAdd` over the keys of players
`1 .. n - 1`, reading the flat coordinate list at indexes `2i` and
`2i + 1`.  Out-of-range reads default to 0; the loop only runs with
`playerPk` of length `2n`, where every read is in range. -/
def aggLoop (l : List Nat) (n : Nat) : Nat × Nat :=
  (List.range (n - 1)).foldl
    (fun acc i =>
      pointAdd acc.1 acc.2 (l.getD (2 * (i + 1)) 0) (l.getD (2 * (i + 1) + 1) 0))
    (l.getD 0 0, l.getD 1 0)

/-- `register(permanentAccount, pk, gameId)`.  Requires the game to be
in `Registration` and the key to be on the curve, appends the player,
and on the final registration aggregates the keys, resets the turn
index, moves to `ShufflingDeck` and initializes the deck. -/
def registerE (st : ContractState) (permanentAccount : Nat) (pk : Nat × Nat)
    (gameId : Nat) : Except Err ContractState :=
  if st.states gameId = GState.Registration then
    if isOnCurve pk.1 pk.2 then
      let info := st.playerInfos gameId
      let info' : PlayerInfo :=
        { info with
          playerAddr := info.playerAddr ++ [permanentAccount]
          playerPk := info.playerPk ++ [pk.1, pk.2] }
      let st1 : ContractState :=
        { st with
          playerInfos := upd st.playerInfos gameId info'
          playerIndexes := upd st.playerIndexes gameId (st.playerIndexes gameId + 1) }
      if st.playerIndexes gameId + 1 = st.numPlayers gameId then
        let info'' : PlayerInfo :=
          { info' with aggregatedPk := aggLoop info'.playerPk (st.numPlayers gameId) }
        let st2 : ContractState :=
          { st1 with
            states := upd st1.states gameId GState.ShufflingDeck
            playerIndexes := upd st1.playerIndexes gameId 0
            playerInfos := upd st1.playerInfos gameId info'' }
        Except.ok (initDeck st2 gameId)
      else Except.ok st1
    else Except.error Err.InvalidPublicKey
  else Except.error Err.InvalidState

/-- `prepareShuffleData`: the 215-entry public-signal array for the
shuffle verifier, modelled as a function from the array index. -/
def prepareShuffleData (st : ContractState) (nonce : Nat)
    (shuffledX0 shuffledX1 : Nat → Nat) (selector : Nat × Nat)
    (gameId : Nat) : Nat → Nat := fun k =>
  if k = 0 then nonce
  else if k = 1 then (st.playerInfos gameId).aggregatedPk.1
  else if k = 2 then (st.playerInfos gameId).aggregatedPk.2
  else if k < 55 then (st.decks gameId).X0 (k - 3)
  else if k < 107 then (st.decks gameId).X1 (k - 55)
  else if k < 159 then shuffledX0 (k - 107)
  else if k < 211 then shuffledX1 (k - 159)
  else if k = 211 then (st.decks gameId).Selector 0
  else if k = 212 then (st.decks gameId).Selector 1
  else if k = 213 then selector.1
  else if k = 214 then selector.2
  else 0

/-- `updateDeck`: replaces the 52 `X0`/`X1` slots and the two selector
words of the deck with the submitted values. -/
def updateDeck (d : Deck) (shuffledX0 shuffledX1 : Nat → Nat)
    (selector : Nat × Nat) : Deck where
  X0 := fun i => if i < 52 then shuffledX0 i else d.X0 i
  X1 := fun i => if i < 52 then shuffledX1 i else d.X1 i
  Selector := fun j =>
    if j = 0 then selector.1 else if j = 1 then selector.2 else d.Selector j

/-- `shuffle(permanentAccount, proof, nonce, shuffledX0, shuffledX1,
selector, gameId)`.  The external Groth16 shuffle verifier, which
reverts on a bad proof, is modelled by the boolean-valued parameter
`vrf` applied to the public-signal array. -/
def shuffleE (vrf : (Nat → Nat) → Bool) (st : ContractState)
    (permanentAccount : Nat) (nonce : Nat) (shuffledX0 shuffledX1 : Nat → Nat)
    (selector : Nat × Nat) (gameId : Nat) : Except Err ContractState :=
  if st.states gameId = GState.ShufflingDeck then
    match (st.playerInfos gameId).playerAddr[st.playerIndexes gameId]? with
    | none => Except.error Err.IndexOutOfBounds
    | some addr =>
      if permanentAccount = addr then
        if vrf (prepareShuffleData st nonce shuffledX0 shuffledX1 selector gameId) then
          let st1 : ContractState :=
            { st with
              decks := upd st.decks gameId
                (updateDeck (st.decks gameId) shuffledX0 shuffledX1 selector)
              playerIndexes := upd st.playerIndexes gameId (st.playerIndexes gameId + 1) }
          if st.playerIndexes gameId + 1 = st.numPlayers gameId then
            Except.ok
              { st1 with
                states := upd st1.states gameId GState.DealingCard
                playerIndexes := upd st1.playerIndexes gameId 0 }
          else Except.ok st1
        else Except.error Err.ProofFailed
      else Except.error Err.NotYourTurn
  else Except.error Err.InvalidState

/-- `decompressEC(x, delta, selector)`: requires `delta` at most
`(Q - 1) / 2` (the literal source constant), `(x, delta)` on the curve
and a boolean selector; returns `delta` when the selector is 1 and
`Q - delta` otherwise. -/
def decompressEC (x delta selector : Nat) : Except Err Nat :=
  if delta ≤ 10944121435919637611123202872628637544274182200208017171849102093287904247808 then
    if isOnCurve x delta then
      if selector = 0 ∨ selector = 1 then
        if selector = 1 then Except.ok delta else Except.ok (Q - delta)
      else Except.error Err.IllFormedSelector
    else Except.error Err.NotOnCurve
  else Except.error Err.IllFormedDelta

/-- `decompressCard(cardIdx, delta, gameId)`: extracts the two selector
bits of the card and decompresses both y-coordinates. -/
def decompressCard (st : ContractState) (cardIdx : Nat) (delta : Nat × Nat)
    (gameId : Nat) : Except Err (Nat × Nat) :=
  match decompressEC ((st.decks gameId).X0 cardIdx) delta.1
      (((st.decks gameId).Selector 0 &&& (1 <<< cardIdx)) >>> cardIdx) with
  | Except.error e => Except.error e
  | Except.ok y0 =>
    match decompressEC ((st.decks gameId).X1 cardIdx) delta.2
        (((st.decks gameId).Selector 1 &&& (1 <<< cardIdx)) >>> cardIdx) with
    | Except.error e => Except.error e
    | Except.ok y1 => Except.ok (y0, y1)

/-- First phase of `deal`: when nobody has dealt the card yet
(`record[cardIdx] == 0`), decompress it with the submitted `initDelta`
and populate `cardDeals[gameId].cards[cardIdx]` from the deck. -/
def dealInit (st : ContractState) (cardIdx : Nat) (initDelta : Nat × Nat)
    (gameId : Nat) : Except Err ContractState :=
  if (st.cardDeals gameId).record cardIdx = 0 then
    match decompressCard st cardIdx initDelta gameId with
    | Except.error e => Except.error e
    | Except.ok Y =>
      let cd := st.cardDeals gameId
      let card : Card :=
        { X0 := (st.decks gameId).X0 cardIdx
          X1 := (st.decks gameId).X1 cardIdx
          Y0 := Y.1
          Y1 := Y.2 }
      let cd' : CardDeal := { cd with cards := upd cd.cards cardIdx card }
      Except.ok { st with cardDeals := upd st.cardDeals gameId cd' }
  else Except.ok st

/-- The 8-entry public-signal array passed to the decrypt verifier by
`deal`, read from the state after `dealInit`. -/
def dealPublicInput (st : ContractState) (cardIdx curPlayerIdx : Nat)
    (decryptedCard : Nat × Nat) (gameId : Nat) : Nat → Nat := fun k =>
  if k = 0 then decryptedCard.1
  else if k = 1 then decryptedCard.2
  else if k = 2 then ((st.cardDeals gameId).cards cardIdx).X0
  else if k = 3 then ((st.cardDeals gameId).cards cardIdx).Y0
  else if k = 4 then ((st.cardDeals gameId).cards cardIdx).X1
  else if k = 5 then ((st.cardDeals gameId).cards cardIdx).Y1
  else if k = 6 then (st.playerInfos gameId).playerPk.getD (2 * curPlayerIdx) 0
  else if k = 7 then (st.playerInfos gameId).playerPk.getD (2 * curPlayerIdx + 1) 0
  else 0

/-- Final writes of a successful `deal`: replace the in-deal card entry
`(X1, Y1)` with the submitted decrypted share and set the player bit in
`record[cardIdx]`. -/
def dealApplyShare (st1 : ContractState) (cardIdx curPlayerIdx : Nat)
    (decryptedCard : Nat × Nat) (gameId : Nat) : ContractState :=
  let cd := st1.cardDeals gameId
  let card := cd.cards cardIdx
  let card' : Card :=
    { card with X1 := decryptedCard.1, Y1 := decryptedCard.2 }
  let cd' : CardDeal :=
    { cd with
      cards := upd cd.cards cardIdx card'
      record := upd cd.record cardIdx
        (cd.record cardIdx ||| (1 <<< curPlayerIdx)) }
  { st1 with cardDeals := upd st1.cardDeals gameId cd' }

/-- `deal(permanentAccount, cardIdx, curPlayerIdx, proof, decryptedCard,
initDelta, gameId)`.  The external decrypt verifier is modelled by the
boolean-valued parameter `dvrf` applied to the public-signal array. -/
def dealE (dvrf : (Nat → Nat) → Bool) (st : ContractState)
    (permanentAccount cardIdx curPlayerIdx : Nat) (decryptedCard : Nat × Nat)
    (initDelta : Nat × Nat) (gameId : Nat) : Except Err ContractState :=
  if st.states gameId = GState.DealingCard then
    match (st.playerInfos gameId).playerAddr[curPlayerIdx]? with
    | none => Except.error Err.IndexOutOfBounds
    | some addr =>
      if addr = permanentAccount then
        if (st.cardDeals gameId).record cardIdx &&& (1 <<< curPlayerIdx) = 0 then
          match dealInit st cardIdx initDelta gameId with
          | Except.error e => Except.error e
          | Except.ok st1 =>
            if dvrf (dealPublicInput st1 cardIdx curPlayerIdx decryptedCard gameId) then
              Except.ok (dealApplyShare st1 cardIdx curPlayerIdx decryptedCard gameId)
            else Except.error Err.ProofFailed
        else Except.error Err.DoubleDeal
      else Except.error Err.NotYourTurn
  else Except.error Err.InvalidState

/-- Linear-scan loop of `search`: starting from slot `i` with the given
fuel, return the first slot whose table entry equals `v`, or
`INVALID_CARD_INDEX` when the fuel (the number of remaining slots) is
exhausted. -/
def searchAux (tbl : Nat → Nat) (v : Nat) : Nat → Nat → Nat
  | 0, _ => INVALID_CARD_INDEX
  | fuel + 1, i => if tbl i = v then i else searchAux tbl v fuel (i + 1)

/-- `search(cardIndex, gameId)`: requires the card fully decrypted
(`record == (1 << numPlayers) - 1`) and scans the 52 slots of
`initialDeck.X1` for the decrypted `X1` value. -/
def searchE (st : ContractState) (cardIndex gameId : Nat) : Except Err Nat :=
  if (st.cardDeals gameId).record cardIndex = (1 <<< st.numPlayers gameId) - 1 then
    Except.ok (searchAux st.initialDeck.X1
      ((st.cardDeals gameId).cards cardIndex).X1 52 0)
  else Except.error Err.CardNotFullyDecrypted

/-- EVM call semantics: a revert (any `Except.error`) rolls the storage
back to the pre-call state.  The wrapper pairs the post-call state with
the surfaced error, if any. -/
def applyCall (st : ContractState) (r : Except Err ContractState) :
    ContractState × Option Err :=
  match r with
  | Except.ok st' => (st', none)
  | Except.error e => (st, some e)

/-- `register` with revert semantics. -/
def applyRegister (st : ContractState) (permanentAccount : Nat)
    (pk : Nat × Nat) (gameId : Nat) : ContractState × Option Err :=
  applyCall st (registerE st permanentAccount pk gameId)

/-- `shuffle` with revert semantics. -/
def applyShuffle (vrf : (Nat → Nat) → Bool) (st : ContractState)
    (permanentAccount : Nat) (nonce : Nat) (shuffledX0 shuffledX1 : Nat → Nat)
    (selector : Nat × Nat) (gameId : Nat) : ContractState × Option Err :=
  applyCall st (shuffleE vrf st permanentAccount nonce shuffledX0 shuffledX1 selector gameId)

/-- `deal` with revert semantics. -/
def applyDeal (dvrf : (Nat → Nat) → Bool) (st : ContractState)
    (permanentAccount cardIdx curPlayerIdx : Nat) (decryptedCard : Nat × Nat)
    (initDelta : Nat × Nat) (gameId : Nat) : ContractState × Option Err :=
  applyCall st (dealE dvrf st permanentAccount cardIdx curPlayerIdx decryptedCard initDelta gameId)

/-- Groups the flat coordinate list `playerPk` into public-key points,
for stating the aggregation claim. -/
def pkPairs : List Nat → List (Nat × Nat)
  | [] => []
  | [_] => []
  | a :: b :: rest => (a, b) :: pkPairs rest

/-- The left-fold `pointAdd` sum of a list of public keys, seeded with
the first key, as the spec describes the aggregated key. -/
def foldPkSum : List (Nat × Nat) → Nat × Nat
  | [] => (0, 0)
  | p :: ps => ps.foldl (fun acc q => pointAdd acc.1 acc.2 q.1 q.2) p

/-- A card record with all fields zero (EVM default storage). -/
def emptyCard : Card := { X0 := 0, Y0 := 0, X1 := 0, Y1 := 0 }

/-- A deck with all slots zero (EVM default storage). -/
def emptyDeck : Deck := { X0 := fun _ => 0, X1 := fun _ => 0, Selector := fun _ => 0 }

/-- Player info with no registrations (EVM default storage). -/
def emptyInfo : PlayerInfo := { playerAddr := [], playerPk := [], aggregatedPk := (0, 0) }

/-- Sample state: a two-player game 1 in `Registration` with one player
(address 10, public key `(0, 1)`) already registered. -/
def stReg : ContractState where
  numPlayers := fun g => if g = 1 then 2 else 0
  decks := fun _ => emptyDeck
  initialDeck := emptyDeck
  cardDeals := fun _ => { cards := fun _ => emptyCard, record := fun _ => 0 }
  playerInfos := fun g =>
    if g = 1 then { playerAddr := [10], playerPk := [0, 1], aggregatedPk := (0, 0) }
    else emptyInfo
  playerIndexes := fun g => if g = 1 then 1 else 0
  states := fun g => if g = 1 then GState.Registration else GState.Uncreated

/-- Sample state: a two-player game 1 in `ShufflingDeck` with both
players registered and the deck initialized. -/
def stShuf : ContractState where
  numPlayers := fun g => if g = 1 then 2 else 0
  decks := fun g => if g = 1 then freshDeck else emptyDeck
  initialDeck := freshDeck
  cardDeals := fun _ => { cards := fun _ => emptyCard, record := fun _ => 0 }
  playerInfos := fun g =>
    if g = 1 then
      { playerAddr := [10, 11], playerPk := [0, 1, 0, Q - 1], aggregatedPk := (0, Q - 1) }
    else emptyInfo
  playerIndexes := fun _ => 0
  states := fun g => if g = 1 then GState.ShufflingDeck else GState.Uncreated

/-- Sample state: a two-player game 1 in `DealingCard`; card 0 has been
dealt by player 1 only (`record = 2`), card 1 is fully dealt
(`record = 3`) with decrypted `X1` equal to slot 5 of the initial
table. -/
def stDeal : ContractState where
  numPlayers := fun g => if g = 1 then 2 else 0
  decks := fun g => if g = 1 then freshDeck else emptyDeck
  initialDeck := freshDeck
  cardDeals := fun g =>
    if g = 1 then
      { cards := fun ci =>
          if ci = 0 then { X0 := 0, Y0 := 1, X1 := 0, Y1 := 1 }
          else if ci = 1 then { X0 := 0, Y0 := 1, X1 := x1Table 5, Y1 := 1 }
          else emptyCard
        record := fun ci => if ci = 0 then 2 else if ci = 1 then 3 else 0 }
    else { cards := fun _ => emptyCard, record := fun _ => 0 }
  playerInfos := fun g =>
    if g = 1 then
      { playerAddr := [10, 11], playerPk := [0, 1, 0, Q - 1], aggregatedPk := (0, Q - 1) }
    else emptyInfo
  playerIndexes := fun _ => 0
  states := fun g => if g = 1 then GState.DealingCard else GState.Uncreated

/-- Sample state: game 1 stuck in `GameError`. -/
def stErr : ContractState where
  numPlayers := fun g => if g = 1 then 2 else 0
  decks := fun _ => emptyDeck
  initialDeck := emptyDeck
  cardDeals := fun _ => { cards := fun _ => emptyCard, record := fun _ => 0 }
  playerInfos := fun _ => emptyInfo
  playerIndexes := fun _ => 0
  states := fun g => if g = 1 then GState.GameError else GState.Uncreated

lemma foldl_range_getD {α β : Type} (f : β → α → β) (d : α) :
    ∀ (l : List α) (init : β),
      (List.range l.length).foldl (fun acc i => f acc (l.getD i d)) init
        = l.foldl f init := by
  intro l
  induction l with
  | nil => intro init; rfl
  | cons x xs ih =>
    intro init
    rw [List.length_cons, List.range_succ_eq_map]
    simp only [List.foldl_cons, List.foldl_map, List.getD_cons_zero, List.getD_cons_succ]
    exact ih (f init x)

lemma pkPairs_getD : ∀ (i : Nat) (l : List Nat), 2 * i + 1 < l.length →
    (pkPairs l).getD i (0, 0) = (l.getD (2 * i) 0, l.getD (2 * i + 1) 0) := by
  intro i
  induction i with
  | zero =>
    intro l h
    match l with
    | [] => simp at h
    | [a] => simp at h
    | a :: b :: rest => simp [pkPairs]
  | succ i ih =>
    intro l h
    match l with
    | [] => simp at h
    | [a] => simp at h
    | a :: b :: rest =>
      have h' : 2 * i + 1 < rest.length := by
        simp only [List.length_cons] at h; omega
      have e1 : 2 * (i + 1) = 2 * i + 1 + 1 := by ring
      have e2 : 2 * (i + 1) + 1 = 2 * i + 1 + 1 + 1 := by ring
      simp only [pkPairs, e1, e2, List.getD_cons_succ]
      exact ih rest h'

lemma pkPairs_length : ∀ l : List Nat, (pkPairs l).length = l.length / 2
  | [] => by simp [pkPairs]
  | [_] => by simp [pkPairs]
  | a :: b :: rest => by
    simp only [pkPairs, List.length_cons, pkPairs_length rest]
    omega

lemma aggLoop_eq_foldPkSum (l : List Nat) (n : Nat) (h : l.length = 2 * n) :
    aggLoop l n = foldPkSum (pkPairs l) := by
  cases n with
  | zero =>
    have : l = [] := List.eq_nil_of_length_eq_zero (by omega)
    subst this
    rfl
  | succ m =>
    match l, h with
    | a :: b :: rest, h =>
      have hrest : rest.length = 2 * m := by
        simp only [List.length_cons] at h; omega
      have hplen : (pkPairs rest).length = m := by
        rw [pkPairs_length, hrest]; omega
      unfold aggLoop foldPkSum pkPairs
      simp only [Nat.add_sub_cancel, List.getD_cons_zero, List.getD_cons_succ]
      rw [← hplen, ← foldl_range_getD (fun acc q => pointAdd acc.1 acc.2 q.1 q.2) (0, 0)
        (pkPairs rest) (a, b)]
      apply List.foldl_ext
      intro acc i hi
      rw [List.mem_range, hplen] at hi
      have hlt : 2 * (i + 1) + 1 < (a :: b :: rest).length := by
        simp only [List.length_cons]; omega
      have := pkPairs_getD (i + 1) (a :: b :: rest) hlt
      simp only [pkPairs, List.getD_cons_succ] at this
      rw [this]

lemma searchAux_spec (tbl : Nat → Nat) (v : Nat) : ∀ (fuel i : Nat),
    (searchAux tbl v fuel i = INVALID_CARD_INDEX ∧
      ∀ j, i ≤ j → j < i + fuel → tbl j ≠ v) ∨
    (i ≤ searchAux tbl v fuel i ∧ searchAux tbl v fuel i < i + fuel ∧
      tbl (searchAux tbl v fuel i) = v ∧
      ∀ j, i ≤ j → j < searchAux tbl v fuel i → tbl j ≠ v) := by
  intro fuel
  induction fuel with
  | zero =>
    intro i
    left
    exact ⟨rfl, fun j h1 h2 => absurd (Nat.lt_of_le_of_lt h1 h2) (by omega)⟩
  | succ f ih =>
    intro i
    by_cases hv : tbl i = v
    · right
      have hres : searchAux tbl v (f + 1) i = i := by simp [searchAux, hv]
      rw [hres]
      exact ⟨Nat.le_refl i, by omega, hv, fun j h1 h2 => absurd h2 (by omega)⟩
    · have step : searchAux tbl v (f + 1) i = searchAux tbl v f (i + 1) := by
        simp [searchAux, hv]
      rcases ih (i + 1) with ⟨hres, hnone⟩ | ⟨h1, h2, h3, h4⟩
      · left
        refine ⟨by rw [step]; exact hres, ?_⟩
        intro j hj1 hj2
        rcases Nat.eq_or_lt_of_le hj1 with rfl | hj1'
        · exact hv
        · exact hnone j hj1' (by omega)
      · right
        rw [step]
        refine ⟨by omega, by omega, h3, ?_⟩
        intro j hj1 hj2
        rcases Nat.eq_or_lt_of_le hj1 with rfl | hj1'
        · exact hv
        · exact h4 j hj1' hj2

lemma pointAdd_absorb_right (x y : Nat) (hy : y ≠ 0) : pointAdd x y 0 0 = (0, 0) := by
  simp [pointAdd, hy, mulmod, addmod, submod, Nat.mod_self]

set_option maxRecDepth 100000 in
set_option maxHeartbeats 4000000 in
lemma pointMul_bigscalar : pointMul 0 (Q - 1) Q = (0, Q - 1) := by decide

/-- C5 (counterexample): `(0, 0)` is not a two-sided identity for
`pointAdd`, and adding a curve point to its negation does not give
`(0, 0)`.  Concretely, the curve point `(0, 1)` satisfies
`pointAdd((0,1), (0,0)) = (0,0) ≠ (0,1)` (the second special branch of
the source compares `_y1` instead of `_y2`, so it does not fire), and
`pointAdd((0,1), neg((0,1))) = (0,1) ≠ (0,0)`. -/
theorem C5_counterexample :
    isOnCurve 0 1 = true ∧
    pointAdd 0 1 0 0 ≠ (0, 1) ∧
    pointAdd 0 1 (negPt (0, 1)).1 (negPt (0, 1)).2 ≠ (0, 0) := by
  refine ⟨by decide, by decide, by decide⟩

/-- C5 (amended): `(0, 0)` is a left identity for `pointAdd`:
`pointAdd((0,0), P) = P` for every `P`.  It is a right identity only
for points with zero y-coordinate: `pointAdd(P, (0,0)) = (0,0)` whenever
`P.y ≠ 0`, and `pointAdd((x,0), (0,0)) = (x,0)`.  Moreover
`pointAdd(P, neg(P))` is not `(0, 0)`: for the curve point `(0, 1)` it
returns `(0, 1)`. -/
theorem C5_theorem :
    (∀ x y, pointAdd 0 0 x y = (x, y)) ∧
    (∀ x y, y ≠ 0 → pointAdd x y 0 0 = (0, 0)) ∧
    (∀ x, pointAdd x 0 0 0 = (x, 0)) ∧
    pointAdd 0 1 (negPt (0, 1)).1 (negPt (0, 1)).2 = (0, 1) := by
  refine ⟨?_, ?_, ?_, by decide⟩
  · intro x y
    simp [pointAdd]
  · intro x y hy
    exact pointAdd_absorb_right x y hy
  · intro x
    by_cases hx : x = 0
    · simp [pointAdd, hx]
    · simp [pointAdd, hx]

/-- C5 (witness): the amended statement at concrete points. -/
theorem C5_witness :
    pointAdd 0 0 5 7 = (5, 7) ∧ pointAdd 3 4 0 0 = (0, 0) ∧ pointAdd 9 0 0 0 = (9, 0) :=
  ⟨C5_theorem.1 5 7, C5_theorem.2.1 3 4 (by decide), C5_theorem.2.2.1 9⟩

/-- C6 (counterexample): `pointMul` does not reduce its scalar modulo
the scalar-field order, and a scalar equal to the scalar-field modulus
`Q` is accepted rather than rejected with `InvalidScalar`: at the curve
point `(0, Q-1)`, `pointMul(P, Q) = (0, Q-1)` whereas
`pointMul(P, Q mod Q) = pointMul(P, 0) = (0, 0)`. -/
theorem C6_counterexample :
    pointMul 0 (Q - 1) Q ≠ pointMul 0 (Q - 1) (Q % Q) := by
  rw [pointMul_bigscalar, Nat.mod_self]
  decide

/-- C6 (amended): `pointMul` performs double-and-add from the least
significant bit on the raw scalar, with no scalar-range check and no
reduction: every scalar is accepted (`pointMul(P, 0) = (0, 0)` and the
out-of-range scalar `Q` yields a result). -/
theorem C6_theorem :
    (∀ x y, pointMul x y 0 = (0, 0)) ∧ pointMul 0 (Q - 1) Q = (0, Q - 1) :=
  ⟨fun _ _ => rfl, pointMul_bigscalar⟩

/-- C8: `decompressEC(x, delta, sel)` fails with `IllFormedDelta` when
`delta > (Q-1)/2`, fails with `NotOnCurve` when `(x, delta)` is not on
the curve, fails with `IllFormedSelector` when `sel` is neither 0 nor 1,
and otherwise returns `delta` for `sel = 1` and `Q - delta` for
`sel = 0`. -/
theorem C8_theorem (x delta sel : Nat) :
    decompressEC x delta sel =
      (if (Q - 1) / 2 < delta then Except.error Err.IllFormedDelta
       else if ¬ (isOnCurve x delta = true) then Except.error Err.NotOnCurve
       else if ¬ (sel = 0 ∨ sel = 1) then Except.error Err.IllFormedSelector
       else if sel = 1 then Except.ok delta else Except.ok (Q - delta)) := by
  have hhalf : (Q - 1) / 2 =
      10944121435919637611123202872628637544274182200208017171849102093287904247808 := by
    decide
  rw [hhalf]
  unfold decompressEC
  by_cases h1 : delta ≤ 10944121435919637611123202872628637544274182200208017171849102093287904247808
  · by_cases h2 : isOnCurve x delta
    · by_cases h3 : sel = 0 ∨ sel = 1
      · by_cases h4 : sel = 1 <;> simp [h1, h2, h3, h4, Nat.not_lt.mpr h1]
      · simp [h1, h2, h3, Nat.not_lt.mpr h1]
    · simp [h1, h2, Nat.not_lt.mpr h1]
  · simp [h1, Nat.lt_of_not_le h1]

/-- C10: `pointMul(x, y, 0) = (0, 0)` for every point, `isOnCurve(0, 0)`
is false, and therefore `register` rejects the public key `(0, 0)` (the
point that `pointAdd`/`pointMul` use as identity) with
`InvalidPublicKey` in any game in `Registration`. -/
theorem C10_theorem :
    (∀ x y, pointMul x y 0 = (0, 0)) ∧
    isOnCurve 0 0 = false ∧
    (∀ st acct g, st.states g = GState.Registration →
      registerE st acct (0, 0) g = Except.error Err.InvalidPublicKey) := by
  refine ⟨fun _ _ => rfl, by decide, ?_⟩
  intro st acct g h
  unfold registerE
  rw [h]
  simp [show isOnCurve 0 0 = false from by decide]

/-- C10 (witness): the statement at concrete inputs; `stReg` is a
sample game in `Registration`. -/
theorem C10_witness :
    pointMul 3 4 0 = (0, 0) ∧ isOnCurve 0 0 = false ∧
    stReg.states 1 = GState.Registration ∧
    registerE stReg 11 (0, 0) 1 = Except.error Err.InvalidPublicKey :=
  ⟨C10_theorem.1 3 4, C10_theorem.2.1, rfl, C10_theorem.2.2 stReg 11 1 rfl⟩

/-- C2: when the `numPlayers`-th player registers in a game in
`Registration` (with a valid key and the invariant that two pk
coordinates are stored per registered player), the call succeeds, the
aggregated key becomes the left-fold `pointAdd` sum of all registered
public keys, the turn index resets to 0, the state becomes
`ShufflingDeck`, and the deck of the (non-zero) game is the fixed
initial deck: `X0` identically 0, `X1` the literal 52-entry table, and
selectors 4503599627370495 and 3075935501959818. -/
theorem C2_theorem (st : ContractState) (acct : Nat) (pk : Nat × Nat) (g : Nat)
    (hg : g ≠ 0)
    (hst : st.states g = GState.Registration)
    (hpk : isOnCurve pk.1 pk.2 = true)
    (hlast : st.playerIndexes g + 1 = st.numPlayers g)
    (hlen : (st.playerInfos g).playerPk.length = 2 * st.playerIndexes g) :
    (applyRegister st acct pk g).2 = none ∧
    (applyRegister st acct pk g).1.states g = GState.ShufflingDeck ∧
    (applyRegister st acct pk g).1.playerIndexes g = 0 ∧
    ((applyRegister st acct pk g).1.playerInfos g).aggregatedPk =
      foldPkSum (pkPairs ((st.playerInfos g).playerPk ++ [pk.1, pk.2])) ∧
    (applyRegister st acct pk g).1.decks g = freshDeck ∧
    (∀ i, freshDeck.X0 i = 0) ∧
    freshDeck.X1 = x1Table ∧
    freshDeck.Selector 0 = 4503599627370495 ∧
    freshDeck.Selector 1 = 3075935501959818 := by
  have hagg : aggLoop ((st.playerInfos g).playerPk ++ [pk.1, pk.2]) (st.numPlayers g)
      = foldPkSum (pkPairs ((st.playerInfos g).playerPk ++ [pk.1, pk.2])) := by
    apply aggLoop_eq_foldPkSum
    rw [List.length_append, hlen]
    simp only [List.length_cons, List.length_nil]
    omega
  simp only [applyRegister, applyCall, registerE, hst, hpk, hlast, initDeck, hg,
    if_true, ite_true, if_false, ite_false, eq_self_iff_true, if_pos, upd]
  refine ⟨by simp, by simp, by simp, by simpa using hagg, by simp, fun i => rfl, rfl, rfl, rfl⟩

/-- C2 (witness): the second registration of the two-player sample game
`stReg` with the on-curve key `(0, Q-1)`. -/
theorem C2_witness :
    (applyRegister stReg 11 (0, Q - 1) 1).2 = none ∧
    (applyRegister stReg 11 (0, Q - 1) 1).1.states 1 = GState.ShufflingDeck ∧
    (applyRegister stReg 11 (0, Q - 1) 1).1.playerIndexes 1 = 0 ∧
    ((applyRegister stReg 11 (0, Q - 1) 1).1.playerInfos 1).aggregatedPk =
      foldPkSum (pkPairs ((stReg.playerInfos 1).playerPk ++ [(0, Q - 1).1, (0, Q - 1).2])) ∧
    (applyRegister stReg 11 (0, Q - 1) 1).1.decks 1 = freshDeck ∧
    (∀ i, freshDeck.X0 i = 0) ∧
    freshDeck.X1 = x1Table ∧
    freshDeck.Selector 0 = 4503599627370495 ∧
    freshDeck.Selector 1 = 3075935501959818 :=
  C2_theorem stReg 11 (0, Q - 1) 1 (by decide) rfl (by decide) rfl (by decide)

/-- C3: `shuffle` succeeds only in `ShufflingDeck` state with the
caller equal to `players[turn]`; outside `ShufflingDeck` it reverts
with `InvalidState`, a wrong caller reverts with `NotYourTurn`; when
the guards hold and the verifier accepts, the call succeeds, the 52
`X0`/`X1` slots and both selectors are replaced by the submitted
values, and the turn index is incremented, rolling over to 0 with a
transition to `DealingCard` when it reaches `numPlayers`. -/
theorem C3_theorem :
    (∀ (vrf : (Nat → Nat) → Bool) st acct nonce sX0 sX1 sel g,
       (applyShuffle vrf st acct nonce sX0 sX1 sel g).2 = none →
         st.states g = GState.ShufflingDeck ∧
         (st.playerInfos g).playerAddr[st.playerIndexes g]? = some acct) ∧
    (∀ (vrf : (Nat → Nat) → Bool) st acct nonce sX0 sX1 sel g,
       st.states g ≠ GState.ShufflingDeck →
       applyShuffle vrf st acct nonce sX0 sX1 sel g = (st, some Err.InvalidState)) ∧
    (∀ (vrf : (Nat → Nat) → Bool) st acct nonce sX0 sX1 sel g a,
       st.states g = GState.ShufflingDeck →
       (st.playerInfos g).playerAddr[st.playerIndexes g]? = some a →
       acct ≠ a →
       applyShuffle vrf st acct nonce sX0 sX1 sel g = (st, some Err.NotYourTurn)) ∧
    (∀ (vrf : (Nat → Nat) → Bool) st acct nonce sX0 sX1 sel g,
       st.states g = GState.ShufflingDeck →
       (st.playerInfos g).playerAddr[st.playerIndexes g]? = some acct →
       vrf (prepareShuffleData st nonce sX0 sX1 sel g) = true →
       (applyShuffle vrf st acct nonce sX0 sX1 sel g).2 = none ∧
       (∀ i, i < 52 →
         ((applyShuffle vrf st acct nonce sX0 sX1 sel g).1.decks g).X0 i = sX0 i ∧
         ((applyShuffle vrf st acct nonce sX0 sX1 sel g).1.decks g).X1 i = sX1 i) ∧
       ((applyShuffle vrf st acct nonce sX0 sX1 sel g).1.decks g).Selector 0 = sel.1 ∧
       ((applyShuffle vrf st acct nonce sX0 sX1 sel g).1.decks g).Selector 1 = sel.2 ∧
       (if st.playerIndexes g + 1 = st.numPlayers g
        then (applyShuffle vrf st acct nonce sX0 sX1 sel g).1.playerIndexes g = 0 ∧
          (applyShuffle vrf st acct nonce sX0 sX1 sel g).1.states g = GState.DealingCard
        else (applyShuffle vrf st acct nonce sX0 sX1 sel g).1.playerIndexes g
            = st.playerIndexes g + 1 ∧
          (applyShuffle vrf st acct nonce sX0 sX1 sel g).1.states g
            = GState.ShufflingDeck)) := by
  refine ⟨?_, ?_, ?_, ?_⟩
  · intro vrf st acct nonce sX0 sX1 sel g h
    by_cases hst : st.states g = GState.ShufflingDeck
    · cases hget : (st.playerInfos g).playerAddr[st.playerIndexes g]? with
      | none =>
        simp only [applyShuffle, applyCall, shuffleE, hst, hget, if_true, ite_true] at h
        simp at h
      | some a =>
        by_cases hacct : acct = a
        · subst hacct
          exact ⟨hst, rfl⟩
        · simp only [applyShuffle, applyCall, shuffleE, hst, hget, hacct, if_true,
            ite_true, if_false, ite_false] at h
          simp at h
    · simp only [applyShuffle, applyCall, shuffleE, hst, if_false, ite_false] at h
      simp at h
  · intro vrf st acct nonce sX0 sX1 sel g hst
    simp [applyShuffle, applyCall, shuffleE, hst]
  · intro vrf st acct nonce sX0 sX1 sel g a hst hget hacct
    simp [applyShuffle, applyCall, shuffleE, hst, hget, hacct]
  · intro vrf st acct nonce sX0 sX1 sel g hst hget hvrf
    by_cases hlast : st.playerIndexes g + 1 = st.numPlayers g
    · simp only [applyShuffle, applyCall, shuffleE, hst, hget, hvrf, hlast, upd,
        updateDeck, if_true, ite_true, eq_self_iff_true]
      refine ⟨by simp, fun i hi => ⟨by simp [hi], by simp [hi]⟩, by simp, by simp, by simp⟩
    · simp only [applyShuffle, applyCall, shuffleE, hst, hget, hvrf, hlast, upd,
        updateDeck, if_true, ite_true, if_false, ite_false, eq_self_iff_true]
      refine ⟨by simp, fun i hi => ⟨by simp [hi], by simp [hi]⟩, by simp, by simp, by simp⟩

/-- C3 (witness): the four parts at concrete inputs over the sample
states `stShuf` (in `ShufflingDeck`) and `stReg` (in `Registration`). -/
theorem C3_witness :
    (stShuf.states 1 = GState.ShufflingDeck ∧
      (stShuf.playerInfos 1).playerAddr[stShuf.playerIndexes 1]? = some 10) ∧
    applyShuffle (fun _ => true) stReg 10 0 (fun _ => 0) (fun _ => 0) (0, 0) 1
      = (stReg, some Err.InvalidState) ∧
    applyShuffle (fun _ => true) stShuf 11 0 (fun _ => 0) (fun _ => 0) (0, 0) 1
      = (stShuf, some Err.NotYourTurn) ∧
    ((applyShuffle (fun _ => true) stShuf 10 0 (fun _ => 0) (fun _ => 0) (0, 0) 1).2 = none ∧
      ((applyShuffle (fun _ => true) stShuf 10 0 (fun _ => 0) (fun _ => 0) (0, 0) 1).1.decks 1).Selector 0 = 0) := by
  refine ⟨?_, ?_, ?_, ?_, ?_⟩
  · exact C3_theorem.1 (fun _ => true) stShuf 10 0 (fun _ => 0) (fun _ => 0) (0, 0) 1 rfl
  · exact C3_theorem.2.1 (fun _ => true) stReg 10 0 (fun _ => 0) (fun _ => 0) (0, 0) 1 (by decide)
  · exact C3_theorem.2.2.1 (fun _ => true) stShuf 11 0 (fun _ => 0) (fun _ => 0) (0, 0) 1 10 rfl rfl (by decide)
  · exact (C3_theorem.2.2.2 (fun _ => true) stShuf 10 0 (fun _ => 0) (fun _ => 0) (0, 0) 1 rfl rfl rfl).1
  · have h := (C3_theorem.2.2.2 (fun _ => true) stShuf 10 0 (fun _ => 0) (fun _ => 0) (0, 0) 1 rfl rfl rfl).2.2.1
    simpa using h

lemma decompressEC_error (x delta sel : Nat) (e : Err)
    (h : decompressEC x delta sel = Except.error e) : e ≠ Err.DoubleDeal := by
  unfold decompressEC at h
  split_ifs at h
  all_goals injection h with h2
  all_goals subst h2
  all_goals decide

lemma decompressCard_error (st : ContractState) (ci : Nat) (delta : Nat × Nat)
    (g : Nat) (e : Err) (h : decompressCard st ci delta g = Except.error e) :
    e ≠ Err.DoubleDeal := by
  unfold decompressCard at h
  cases h0 : decompressEC ((st.decks g).X0 ci) delta.1
      (((st.decks g).Selector 0 &&& (1 <<< ci)) >>> ci) with
  | error e0 =>
    rw [h0] at h
    simp only [Except.error.injEq] at h
    exact h ▸ decompressEC_error _ _ _ _ h0
  | ok y0 =>
    rw [h0] at h
    cases h1 : decompressEC ((st.decks g).X1 ci) delta.2
        (((st.decks g).Selector 1 &&& (1 <<< ci)) >>> ci) with
    | error e1 =>
      rw [h1] at h
      simp only [Except.error.injEq] at h
      exact h ▸ decompressEC_error _ _ _ _ h1
    | ok y1 =>
      rw [h1] at h
      simp at h

lemma dealInit_error (st : ContractState) (ci : Nat) (delta : Nat × Nat)
    (g : Nat) (e : Err) (h : dealInit st ci delta g = Except.error e) :
    e ≠ Err.DoubleDeal := by
  unfold dealInit at h
  by_cases h0 : (st.cardDeals g).record ci = 0
  · rw [if_pos h0] at h
    cases hdec : decompressCard st ci delta g with
    | error e1 =>
      rw [hdec] at h
      simp only [Except.error.injEq] at h
      exact h ▸ decompressCard_error _ _ _ _ _ hdec
    | ok Y =>
      rw [hdec] at h
      simp at h
  · rw [if_neg h0] at h
    simp at h

lemma dealInit_ok (st : ContractState) (ci : Nat) (delta : Nat × Nat) (g : Nat)
    (st1 : ContractState) (h : dealInit st ci delta g = Except.ok st1) :
    (∀ g', (st1.cardDeals g').record = (st.cardDeals g').record) ∧
    st1.playerIndexes = st.playerIndexes ∧ st1.states = st.states := by
  unfold dealInit at h
  by_cases h0 : (st.cardDeals g).record ci = 0
  · rw [if_pos h0] at h
    cases hdec : decompressCard st ci delta g with
    | error e => rw [hdec] at h; simp at h
    | ok Y =>
      rw [hdec] at h
      simp only [Except.ok.injEq] at h
      cases h
      refine ⟨fun g' => ?_, rfl, rfl⟩
      by_cases hg' : g' = g <;> simp [upd, hg']
  · rw [if_neg h0] at h
    simp only [Except.ok.injEq] at h
    cases h
    exact ⟨fun g' => rfl, rfl, rfl⟩

lemma dealApplyShare_fields (st1 : ContractState) (ci pj : Nat)
    (dc : Nat × Nat) (g : Nat) :
    ((dealApplyShare st1 ci pj dc g).cardDeals g).record ci
      = (st1.cardDeals g).record ci ||| (1 <<< pj) ∧
    (((dealApplyShare st1 ci pj dc g).cardDeals g).cards ci).X1 = dc.1 ∧
    (((dealApplyShare st1 ci pj dc g).cardDeals g).cards ci).Y1 = dc.2 ∧
    (dealApplyShare st1 ci pj dc g).playerIndexes = st1.playerIndexes ∧
    (dealApplyShare st1 ci pj dc g).states = st1.states := by
  refine ⟨by simp [dealApplyShare, upd], by simp [dealApplyShare, upd],
    by simp [dealApplyShare, upd], rfl, rfl⟩

/-- C4 (amended): in `DealingCard` state with the caller matching
player `j`, `deal` on card `i` fails with `DoubleDeal` exactly when bit
`j` of `record[i]` is already set; a successful `deal` sets bit `j` of
`record[i]`, replaces the in-deal card entry `(X1, Y1)` with the
submitted decrypted share, and leaves the turn index unchanged (the
source never touches `playerIndexes` in `deal`). -/
theorem C4_theorem (dvrf : (Nat → Nat) → Bool) (st : ContractState)
    (acct ci pj : Nat) (dc delta : Nat × Nat) (g : Nat)
    (hst : st.states g = GState.DealingCard)
    (haddr : (st.playerInfos g).playerAddr[pj]? = some acct) :
    (dealE dvrf st acct ci pj dc delta g = Except.error Err.DoubleDeal ↔
      (st.cardDeals g).record ci &&& (1 <<< pj) ≠ 0) ∧
    (∀ st', dealE dvrf st acct ci pj dc delta g = Except.ok st' →
      (st'.cardDeals g).record ci = (st.cardDeals g).record ci ||| (1 <<< pj) ∧
      ((st'.cardDeals g).cards ci).X1 = dc.1 ∧
      ((st'.cardDeals g).cards ci).Y1 = dc.2 ∧
      st'.playerIndexes = st.playerIndexes) := by
  constructor
  · by_cases hbit : (st.cardDeals g).record ci &&& (1 <<< pj) = 0
    · constructor
      · intro h
        exfalso
        simp only [dealE, hst, haddr, hbit, if_true, ite_true, eq_self_iff_true] at h
        cases hinit : dealInit st ci delta g with
        | error e =>
          simp only [hinit, Except.error.injEq] at h
          exact dealInit_error st ci delta g e hinit h
        | ok st1 =>
          by_cases hv : dvrf (dealPublicInput st1 ci pj dc g) = true
          · simp [hinit, hv] at h
          · simp [hinit, hv] at h
      · intro h
        exact absurd hbit h
    · constructor
      · intro _
        exact hbit
      · intro _
        simp [dealE, hst, haddr, hbit]
  · intro st' h
    by_cases hbit : (st.cardDeals g).record ci &&& (1 <<< pj) = 0
    · simp only [dealE, hst, haddr, hbit, if_true, ite_true, eq_self_iff_true] at h
      cases hinit : dealInit st ci delta g with
      | error e =>
        simp [hinit] at h
      | ok st1 =>
        by_cases hv : dvrf (dealPublicInput st1 ci pj dc g) = true
        · simp only [hinit, hv, if_true, ite_true, Except.ok.injEq] at h
          have hfacts := dealInit_ok st ci delta g st1 hinit
          have hshare := dealApplyShare_fields st1 ci pj dc g
          subst h
          refine ⟨?_, hshare.2.1, hshare.2.2.1, ?_⟩
          · rw [hshare.1, hfacts.1 g]
          · rw [hshare.2.2.2.1, hfacts.2.1]
        · simp [hinit, hv] at h
    · simp [dealE, hst, haddr, hbit] at h

/-- C4 (counterexample): a successful `deal` does not advance the turn
index, contradicting the claim.  In the sample state `stDeal` (card 0
has `record = 2`, player 0 has not dealt it), player 0 deals card 0 with
an accepting verifier: the call succeeds and `playerIndexes` stays 0
instead of becoming 1. -/
theorem C4_counterexample :
    (applyDeal (fun _ => true) stDeal 10 0 0 (5, 6) (0, 0) 1).2 = none ∧
    (applyDeal (fun _ => true) stDeal 10 0 0 (5, 6) (0, 0) 1).1.playerIndexes 1
      = stDeal.playerIndexes 1 ∧
    ¬ (applyDeal (fun _ => true) stDeal 10 0 0 (5, 6) (0, 0) 1).1.playerIndexes 1
      = stDeal.playerIndexes 1 + 1 := by
  refine ⟨rfl, rfl, by decide⟩

/-- C4 (witness): the amended statement at the same concrete input: the
call is not a `DoubleDeal` failure (bit 0 of `record[0] = 2` is clear)
and in fact succeeds. -/
theorem C4_witness :
    ¬ (dealE (fun _ => true) stDeal 10 0 0 (5, 6) (0, 0) 1
        = Except.error Err.DoubleDeal) ∧
    ((stDeal.cardDeals 1).record 0 &&& (1 <<< 0) = 0) ∧
    (dealE (fun _ => true) stDeal 10 0 0 (5, 6) (0, 0) 1).isOk = true := by
  refine ⟨?_, by decide, rfl⟩
  intro hcontra
  exact ((C4_theorem (fun _ => true) stDeal 10 0 0 (5, 6) (0, 0) 1 rfl rfl).1.mp hcontra)
    (by decide)

/-- C7: `search(cardIndex, gameId)` reverts with
`CardNotFullyDecrypted` unless `record[cardIndex] = (1 << numPlayers) - 1`;
on a fully decrypted card it succeeds and returns the least slot of the
contract initial deck whose `X1` equals the decrypted `X1` value, or
`INVALID_CARD_INDEX = 999999` when no slot of `0..51` matches. -/
theorem C7_theorem :
    (∀ st ci g, (st.cardDeals g).record ci ≠ (1 <<< st.numPlayers g) - 1 →
       searchE st ci g = Except.error Err.CardNotFullyDecrypted) ∧
    (∀ st ci g, (st.cardDeals g).record ci = (1 <<< st.numPlayers g) - 1 →
       ∀ r, searchE st ci g = Except.ok r →
       ((r < 52 ∧ st.initialDeck.X1 r = ((st.cardDeals g).cards ci).X1 ∧
         ∀ j, j < r → st.initialDeck.X1 j ≠ ((st.cardDeals g).cards ci).X1) ∨
        (r = INVALID_CARD_INDEX ∧
         ∀ j, j < 52 → st.initialDeck.X1 j ≠ ((st.cardDeals g).cards ci).X1))) ∧
    (∀ st ci g, (st.cardDeals g).record ci = (1 <<< st.numPlayers g) - 1 →
       (searchE st ci g).isOk = true) := by
  refine ⟨?_, ?_, ?_⟩
  · intro st ci g h
    simp [searchE, h]
  · intro st ci g h r hr
    simp only [searchE, h, if_pos, ite_true, eq_self_iff_true, Except.ok.injEq] at hr
    rcases searchAux_spec st.initialDeck.X1 ((st.cardDeals g).cards ci).X1 52 0 with
      ⟨hres, hnone⟩ | ⟨h1, h2, h3, h4⟩
    · right
      rw [← hr]
      exact ⟨hres, fun j hj => hnone j (Nat.zero_le j) (by omega)⟩
    · left
      rw [← hr]
      exact ⟨by omega, h3, fun j hj => h4 j (Nat.zero_le j) hj⟩
  · intro st ci g h
    simp [searchE, h, Except.isOk, Except.toBool]

/-- C7 (witness): in `stDeal`, card 0 is partially dealt (`record = 2`)
and `search` reverts; card 1 is fully dealt (`record = 3 = (1 << 2) - 1`)
with decrypted `X1` equal to slot 5 of the initial table, and `search`
returns 5, the least (indeed only) matching slot. -/
theorem C7_witness :
    searchE stDeal 0 1 = Except.error Err.CardNotFullyDecrypted ∧
    ((5 < 52 ∧ stDeal.initialDeck.X1 5 = ((stDeal.cardDeals 1).cards 1).X1 ∧
       ∀ j, j < 5 → stDeal.initialDeck.X1 j ≠ ((stDeal.cardDeals 1).cards 1).X1) ∨
     (5 = INVALID_CARD_INDEX ∧
       ∀ j, j < 52 → stDeal.initialDeck.X1 j ≠ ((stDeal.cardDeals 1).cards 1).X1)) ∧
    (searchE stDeal 1 1).isOk = true := by
  refine ⟨?_, ?_, ?_⟩
  · exact C7_theorem.1 stDeal 0 1 (by decide)
  · exact C7_theorem.2.1 stDeal 1 1 (by decide) 5 rfl
  · exact C7_theorem.2.2 stDeal 1 1 (by decide)

/-- C1: a `shuffle` or `deal` whose proof the external verifier rejects
reverts with `ProofFailed` and leaves the contract state exactly as it
was (in particular the game state, turn index, deck and per-card deal
records). -/
theorem C1_theorem :
    (∀ (vrf : (Nat → Nat) → Bool) st acct nonce sX0 sX1 sel g,
       st.states g = GState.ShufflingDeck →
       (st.playerInfos g).playerAddr[st.playerIndexes g]? = some acct →
       vrf (prepareShuffleData st nonce sX0 sX1 sel g) = false →
       applyShuffle vrf st acct nonce sX0 sX1 sel g = (st, some Err.ProofFailed)) ∧
    (∀ (dvrf : (Nat → Nat) → Bool) st acct ci pj dc delta g st1,
       st.states g = GState.DealingCard →
       (st.playerInfos g).playerAddr[pj]? = some acct →
       (st.cardDeals g).record ci &&& (1 <<< pj) = 0 →
       dealInit st ci delta g = Except.ok st1 →
       dvrf (dealPublicInput st1 ci pj dc g) = false →
       applyDeal dvrf st acct ci pj dc delta g = (st, some Err.ProofFailed)) := by
  constructor
  · intro vrf st acct nonce sX0 sX1 sel g hst hget hvrf
    simp [applyShuffle, applyCall, shuffleE, hst, hget, hvrf]
  · intro dvrf st acct ci pj dc delta g st1 hst haddr hbit hinit hdv
    simp [applyDeal, applyCall, dealE, hst, haddr, hbit, hinit, hdv]

/-- C1 (witness): a rejecting verifier on the sample shuffle state and
the sample deal state: both calls return the original state paired with
`ProofFailed`. -/
theorem C1_witness :
    applyShuffle (fun _ => false) stShuf 10 0 (fun _ => 0) (fun _ => 0) (0, 0) 1
      = (stShuf, some Err.ProofFailed) ∧
    applyDeal (fun _ => false) stDeal 10 0 0 (5, 6) (0, 0) 1
      = (stDeal, some Err.ProofFailed) :=
  ⟨C1_theorem.1 (fun _ => false) stShuf 10 0 (fun _ => 0) (fun _ => 0) (0, 0) 1 rfl rfl rfl,
   C1_theorem.2 (fun _ => false) stDeal 10 0 0 (5, 6) (0, 0) 1 stDeal rfl rfl (by decide) rfl rfl⟩

lemma upd_states_ne_gameError (f : Nat → GState) (g g' : Nat) (v : GState)
    (hv : v ≠ GState.GameError) (h : f g' ≠ GState.GameError) :
    upd f g v g' ≠ GState.GameError := by
  by_cases hg' : g' = g <;> simp [upd, hg', hv, h]

lemma dealE_ok_states (dvrf : (Nat → Nat) → Bool) (st : ContractState)
    (acct ci pj : Nat) (dc delta : Nat × Nat) (g : Nat) (st' : ContractState)
    (h : dealE dvrf st acct ci pj dc delta g = Except.ok st') :
    st'.states = st.states := by
  by_cases hst : st.states g = GState.DealingCard
  · cases hget : (st.playerInfos g).playerAddr[pj]? with
    | none => simp [dealE, hst, hget] at h
    | some addr =>
      by_cases hacct : addr = acct
      · by_cases hbit : (st.cardDeals g).record ci &&& (1 <<< pj) = 0
        · simp only [dealE, hst, hget, hacct, hbit, if_true, ite_true,
            eq_self_iff_true] at h
          cases hinit : dealInit st ci delta g with
          | error e => simp [hinit] at h
          | ok st1 =>
            by_cases hv : dvrf (dealPublicInput st1 ci pj dc g) = true
            · simp only [hinit, hv, if_true, ite_true, Except.ok.injEq] at h
              subst h
              rw [(dealApplyShare_fields st1 ci pj dc g).2.2.2.2,
                (dealInit_ok st ci delta g st1 hinit).2.2]
            · simp [hinit, hv] at h
        · simp [dealE, hst, hget, hacct, hbit] at h
      · simp [dealE, hst, hget, hacct] at h
  · simp [dealE, hst] at h

/-- C9 (counterexample): failures do not move a game to `GameError`:
a `register` rejected with `InvalidPublicKey` leaves the sample game in
`Registration`, and a `shuffle` rejected with `ProofFailed` leaves the
sample game in `ShufflingDeck`; neither post-state is `GameError`. -/
theorem C9_counterexample :
    applyRegister stReg 11 (0, 0) 1 = (stReg, some Err.InvalidPublicKey) ∧
    (applyRegister stReg 11 (0, 0) 1).1.states 1 = GState.Registration ∧
    GState.Registration ≠ GState.GameError ∧
    applyShuffle (fun _ => false) stShuf 11 0 (fun _ => 0) (fun _ => 0) (1, 2) 1
      = (stShuf, some Err.NotYourTurn) ∧
    applyShuffle (fun _ => true) stShuf 10 1 (fun _ => 1) (fun _ => 1) (1, 2) 2
      = (stShuf, some Err.InvalidState) ∧
    (applyShuffle (fun _ => false) stShuf 10 0 (fun _ => 0) (fun _ => 0) (0, 0) 1).2
      = some Err.ProofFailed ∧
    (applyShuffle (fun _ => false) stShuf 10 0 (fun _ => 0) (fun _ => 0) (0, 0) 1).1.states 1
      = GState.ShufflingDeck ∧
    GState.ShufflingDeck ≠ GState.GameError := by
  exact ⟨rfl, rfl, by decide, rfl, rfl, rfl, rfl, by decide⟩

/-- C9 (amended): an operation that fails (with `ProofFailed`,
`InvalidPublicKey` or any other error) reverts and leaves the game state
unchanged; no operation ever moves any game into `GameError`; and a game
that were in `GameError` would indeed be stuck: `register`, `shuffle`
and `deal` all revert with `InvalidState` and change nothing. -/
theorem C9_theorem :
    (∀ st acct pk g g', st.states g' ≠ GState.GameError →
       (applyRegister st acct pk g).1.states g' ≠ GState.GameError) ∧
    (∀ (vrf : (Nat → Nat) → Bool) st acct nonce sX0 sX1 sel g g',
       st.states g' ≠ GState.GameError →
       (applyShuffle vrf st acct nonce sX0 sX1 sel g).1.states g' ≠ GState.GameError) ∧
    (∀ (dvrf : (Nat → Nat) → Bool) st acct ci pj dc delta g g',
       st.states g' ≠ GState.GameError →
       (applyDeal dvrf st acct ci pj dc delta g).1.states g' ≠ GState.GameError) ∧
    (∀ st acct pk g, st.states g = GState.GameError →
       applyRegister st acct pk g = (st, some Err.InvalidState)) ∧
    (∀ (vrf : (Nat → Nat) → Bool) st acct nonce sX0 sX1 sel g,
       st.states g = GState.GameError →
       applyShuffle vrf st acct nonce sX0 sX1 sel g = (st, some Err.InvalidState)) ∧
    (∀ (dvrf : (Nat → Nat) → Bool) st acct ci pj dc delta g,
       st.states g = GState.GameError →
       applyDeal dvrf st acct ci pj dc delta g = (st, some Err.InvalidState)) := by
  refine ⟨?_, ?_, ?_, ?_, ?_, ?_⟩
  · intro st acct pk g g' hne
    by_cases h1 : st.states g = GState.Registration
    · by_cases hpk : isOnCurve pk.1 pk.2 = true
      · by_cases hlast : st.playerIndexes g + 1 = st.numPlayers g
        · by_cases hg : g = 0
          · subst hg
            simp only [applyRegister, applyCall, registerE, h1, hpk, hlast, initDeck,
              if_true, ite_true, eq_self_iff_true]
            exact upd_states_ne_gameError st.states 0 g' GState.ShufflingDeck (by decide) hne
          · simp only [applyRegister, applyCall, registerE, h1, hpk, hlast, initDeck,
              hg, if_true, ite_true, if_false, ite_false, eq_self_iff_true]
            exact upd_states_ne_gameError st.states g g' GState.ShufflingDeck (by decide) hne
        · simp only [applyRegister, applyCall, registerE, h1, hpk, hlast, if_true,
            ite_true, if_false, ite_false, eq_self_iff_true]
          exact hne
      · simp [applyRegister, applyCall, registerE, h1, hpk, hne]
    · simp [applyRegister, applyCall, registerE, h1, hne]
  · intro vrf st acct nonce sX0 sX1 sel g g' hne
    by_cases h1 : st.states g = GState.ShufflingDeck
    · cases hget : (st.playerInfos g).playerAddr[st.playerIndexes g]? with
      | none => simp [applyShuffle, applyCall, shuffleE, h1, hget, hne]
      | some a =>
        by_cases hacct : acct = a
        · by_cases hv : vrf (prepareShuffleData st nonce sX0 sX1 sel g) = true
          · by_cases hlast : st.playerIndexes g + 1 = st.numPlayers g
            · simp only [applyShuffle, applyCall, shuffleE, h1, hget, hacct, hv, hlast,
                if_true, ite_true, eq_self_iff_true]
              exact upd_states_ne_gameError st.states g g' GState.DealingCard (by decide) hne
            · simp only [applyShuffle, applyCall, shuffleE, h1, hget, hacct, hv, hlast,
                if_true, ite_true, if_false, ite_false, eq_self_iff_true]
              exact hne
          · simp [applyShuffle, applyCall, shuffleE, h1, hget, hacct, hv, hne]
        · simp [applyShuffle, applyCall, shuffleE, h1, hget, hacct, hne]
    · simp [applyShuffle, applyCall, shuffleE, h1, hne]
  · intro dvrf st acct ci pj dc delta g g' hne
    cases hres : dealE dvrf st acct ci pj dc delta g with
    | error e => simp [applyDeal, applyCall, hres, hne]
    | ok st' =>
      have := dealE_ok_states dvrf st acct ci pj dc delta g st' hres
      simp only [applyDeal, applyCall, hres]
      rw [this]
      exact hne
  · intro st acct pk g h
    simp [applyRegister, applyCall, registerE, h]
  · intro vrf st acct nonce sX0 sX1 sel g h
    simp [applyShuffle, applyCall, shuffleE, h]
  · intro dvrf st acct ci pj dc delta g h
    simp [applyDeal, applyCall, dealE, h]

/-- C9 (witness): the amended statement at concrete states: the failing
register on `stReg` does not produce `GameError`, and in the sample
`GameError` state `stErr` all three operations revert with
`InvalidState`. -/
theorem C9_witness :
    (applyRegister stReg 11 (0, 0) 1).1.states 1 ≠ GState.GameError ∧
    (applyShuffle (fun _ => false) stShuf 10 0 (fun _ => 0) (fun _ => 0) (0, 0) 1).1.states 1
      ≠ GState.GameError ∧
    (applyDeal (fun _ => false) stDeal 10 0 0 (5, 6) (0, 0) 1).1.states 1
      ≠ GState.GameError ∧
    applyRegister stErr 11 (0, 1) 1 = (stErr, some Err.InvalidState) ∧
    applyShuffle (fun _ => true) stErr 10 0 (fun _ => 0) (fun _ => 0) (0, 0) 1
      = (stErr, some Err.InvalidState) ∧
    applyDeal (fun _ => true) stErr 10 0 0 (5, 6) (0, 0) 1
      = (stErr, some Err.InvalidState) :=
  ⟨C9_theorem.1 stReg 11 (0, 0) 1 1 (by decide),
   C9_theorem.2.1 (fun _ => false) stShuf 10 0 (fun _ => 0) (fun _ => 0) (0, 0) 1 1 (by decide),
   C9_theorem.2.2.1 (fun _ => false) stDeal 10 0 0 (5, 6) (0, 0) 1 1 (by decide),
   C9_theorem.2.2.2.1 stErr 11 (0, 1) 1 rfl,
   C9_theorem.2.2.2.2.1 (fun _ => true) stErr 10 0 (fun _ => 0) (fun _ => 0) (0, 0) 1 rfl,
   C9_theorem.2.2.2.2.2 (fun _ => true) stErr 10 0 0 (5, 6) (0, 0) 1 rfl⟩

end ZkShuffle
